import Mathlib

/-!
Shallow embedding of the OAuth2 token-acquisition and authenticated-dispatch
core of the frappe-mcp-server repository.

Embedded source:
 * `src/open_webui_functions/erpnext_oauth_integration.py`
   (`Tools._get_oauth_token`, `Tools._make_authenticated_request`),
 * `src/scripts/get-oauth-token-authcode.py` (`get_oauth_token_automated`),
 * `src/scripts/create-demo-data.py` (`ERPNextClient._headers`).

Modelling conventions: time is an absolute instant in whole seconds (`Int`,
so that `expires_in - 60` may go negative exactly as a Python `timedelta`
can); HTTP traffic is an explicit "world" value passed in (the token
endpoint's answer, and the resource server as a function from the request
the code builds to a response); `None` becomes `Option.none`; Python string
truthiness (`if token:`) becomes an explicit non-empty test; a `requests`
exception becomes the `HttpResult.exn` variant.  Each embedded function
additionally reports how many token-endpoint network calls it made and
which resource requests it issued, so that "no network call" and
"exactly one request" are stated directly.
-/

/-- Valves configuration block of the `Tools` class
(`erpnext_oauth_integration.py`, lines 19-43). -/
structure Valves where
  mcpApiBase : String
  frappeBaseUrl : String
  oauthClientId : String
  oauthClientSecret : String
  timeout : Int
  cacheToken : Bool
  deriving DecidableEq

/-- Mutable token state of a `Tools` instance: `self._cached_token` and
`self._token_expires_at` (`erpnext_oauth_integration.py`, lines 47-48). -/
structure ToolsState where
  cachedToken : Option String
  tokenExpiresAt : Option Int
  deriving DecidableEq

/-- JSON body of a token-endpoint response, as the code reads it with
`token_data.get(...)`: every field may be absent. -/
structure TokenJson where
  accessToken : Option String
  tokenType : Option String
  expiresIn : Option Int
  scope : Option String
  deriving DecidableEq

/-- Outcome of one `requests.post` to the token endpoint: either a response
with a status code and JSON body, or a raised transport exception. -/
inductive HttpResult where
  | ok (status : Nat) (body : TokenJson)
  | exn (msg : String)
  deriving DecidableEq

/-- Result of one `_get_oauth_token` invocation: the returned value, the
`Tools` state afterwards, and how many token-endpoint requests were made. -/
structure TokenFetchResult where
  token : Option String
  state : ToolsState
  netCalls : Nat
  deriving DecidableEq

/-- Cache check at the top of `_get_oauth_token`
(`erpnext_oauth_integration.py`, lines 56-60): the cached token is used only
when `CACHE_TOKEN` is set, `self._cached_token` is truthy (a non-empty
string), `self._token_expires_at` is set, and `now` is strictly before it. -/
def cache_lookup (v : Valves) (st : ToolsState) (now : Int) : Option String :=
  match st.cachedToken, st.tokenExpiresAt with
  | some tok, some exp =>
      if v.cacheToken ∧ tok ≠ "" ∧ now < exp then some tok else none
  | _, _ => none

/-- Embedding of `Tools._get_oauth_token`
(`erpnext_oauth_integration.py`, lines 50-90).  On a cache miss it fails
fast with `none` when the client id or secret is the empty string (Python
falsy); otherwise it performs the one POST to the token endpoint: on
status 200 it stores `access_token` and `now + (expires_in default 3600)
- 60` and returns the stored token; any other status, and any raised
exception, returns `none` with the state unchanged. -/
def get_oauth_token (v : Valves) (st : ToolsState) (now : Int)
    (ep : HttpResult) : TokenFetchResult :=
  match cache_lookup v st now with
  | some tok => ⟨some tok, st, 0⟩
  | none =>
      if v.oauthClientId = "" ∨ v.oauthClientSecret = "" then ⟨none, st, 0⟩
      else
        match ep with
        | .ok status body =>
            if status = 200 then
              let expiresIn := body.expiresIn.getD 3600
              let st' : ToolsState := ⟨body.accessToken, some (now + (expiresIn - 60))⟩
              ⟨body.accessToken, st', 1⟩
            else ⟨none, st, 1⟩
        | .exn _ => ⟨none, st, 1⟩

/-- User-context dictionary passed to `_make_authenticated_request`; the code
probes the keys `"user_id"`, `"user_email"`, `"user_name"`, so each is an
optional field. -/
structure UserContext where
  userId : Option String
  userEmail : Option String
  userName : Option String
  deriving DecidableEq

/-- Truthiness of the `user_context` argument as Python evaluates
`if user_context:` — a `None` or an empty dict is falsy. -/
def uc_truthy (uc : Option UserContext) : Bool :=
  match uc with
  | none => false
  | some u => u.userId.isSome || u.userEmail.isSome || u.userName.isSome

/-- Header construction of `_make_authenticated_request`
(`erpnext_oauth_integration.py`, lines 105-117): start from Content-Type;
when a (truthy) token was obtained add the Bearer Authorization header and,
when a truthy user context was supplied, one `X-MCP-User-…` header per key
actually present in it. -/
def build_headers (token : Option String) (uc : Option UserContext) :
    List (String × String) :=
  let headers := [("Content-Type", "application/json")]
  match token with
  | none => headers
  | some tok =>
      if tok = "" then headers
      else
        let headers := headers ++ [("Authorization", "Bearer " ++ tok)]
        if uc_truthy uc then
          match uc with
          | none => headers
          | some u =>
              let headers := headers ++
                (match u.userId with
                 | some i => [("X-MCP-User-ID", i)]
                 | none => [])
              let headers := headers ++
                (match u.userEmail with
                 | some e => [("X-MCP-User-Email", e)]
                 | none => [])
              headers ++
                (match u.userName with
                 | some n => [("X-MCP-User-Name", n)]
                 | none => [])
        else headers

/-- Model of Python `str.upper()` as used in `method.upper()`. -/
def py_upper (s : String) : String := String.mk (s.data.map Char.toUpper)

/-- Outbound HTTP request the dispatcher builds (method, full URL, header
list, optional JSON payload). -/
structure Request where
  method : String
  url : String
  headers : List (String × String)
  jsonData : Option String
  deriving DecidableEq

/-- Response of the resource server: status code and body text. -/
structure Response where
  statusCode : Nat
  text : String
  deriving DecidableEq

/-- Result of one `_make_authenticated_request` invocation: the response it
returns, the `Tools` state afterwards, the number of token-endpoint
requests made, and the list of resource requests it issued. -/
structure DispatchResult where
  response : Response
  state : ToolsState
  tokenNetCalls : Nat
  issued : List Request
  deriving DecidableEq

/-- Embedding of `Tools._make_authenticated_request`
(`erpnext_oauth_integration.py`, lines 92-126).  It obtains a token via
`_get_oauth_token`, builds the headers, issues exactly one GET or POST to
`MCP_API_BASE + endpoint` and returns that response; an unsupported method
raises `ValueError` (the `Except.error` case).  The resource server is the
function `resource` from the request built to its response. -/
def make_authenticated_request (v : Valves) (st : ToolsState) (now : Int)
    (ep : HttpResult) (resource : Request → Response)
    (method endpoint : String) (json_data : Option String)
    (user_context : Option UserContext) : Except String DispatchResult :=
  let fr := get_oauth_token v st now ep
  let headers := build_headers fr.token user_context
  let url := v.mcpApiBase ++ endpoint
  if py_upper method = "GET" then
    let req : Request := ⟨"GET", url, headers, none⟩
    .ok ⟨resource req, fr.state, fr.netCalls, [req]⟩
  else if py_upper method = "POST" then
    let req : Request := ⟨"POST", url, headers, json_data⟩
    .ok ⟨resource req, fr.state, fr.netCalls, [req]⟩
  else
    .error ("Unsupported HTTP method: " ++ method)

/-- Substring test modelling Python `needle in haystack` on strings. -/
def containsSub (h n : String) : Bool :=
  h.data.tails.any (fun t => n.data.isPrefixOf t)

/-- Split of a character list at every occurrence of one character,
modelling Python `str.split(c)` semantics (never returns an empty list). -/
def splitOnChar (c : Char) : List Char → List (List Char)
  | [] => [[]]
  | x :: xs =>
      let r := splitOnChar c xs
      if x = c then [] :: r
      else
        match r with
        | [] => [[x]]
        | y :: ys => (x :: y) :: ys

/-- Query component of a URL as `urllib.parse.urlparse(...).query` extracts
it: drop the fragment (everything from the first `#`), then take everything
after the first `?` (later `?` characters stay inside the query). -/
def url_query (s : String) : String :=
  let noFrag := (splitOnChar '#' s.data).headD []
  match splitOnChar '?' noFrag with
  | [] => ""
  | [_] => ""
  | _ :: rest => String.mk (List.intercalate ['?'] rest)

/-- Query-string parse modelling `urllib.parse.parse_qs` with its defaults:
fields are separated by `&`, each field is split at its first `=` (a field
with no `=` or with an empty value is dropped), and values keep their order
of appearance.  Percent-decoding is not modelled (the authorization codes in
scope are plain alphanumeric strings). -/
def parse_qs (q : String) : List (String × String) :=
  (splitOnChar '&' q.data).filterMap fun f =>
    match splitOnChar '=' f with
    | [] => none
    | [_] => none
    | k :: rest =>
        let v := List.intercalate ['='] rest
        if v = [] then none else some (String.mk k, String.mk v)

/-- First value stored under a key, modelling `parse_qs(...)[key][0]`
(with `key in parse_qs(...)` as the `isSome` of the result). -/
def lookupFirst (ps : List (String × String)) (k : String) : Option String :=
  (ps.find? (fun p => p.1 == k)).map (fun p => p.2)

/-- Redirect status codes the script accepts
(`get-oauth-token-authcode.py`, lines 65 and 85). -/
def redirectCodes : List Nat := [301, 302, 303, 307, 308]

/-- Mocked HTTP world for one run of `get_oauth_token_automated`: the login
response status, the status and `Location` header of the authorization
request (an absent header is the empty string, as `headers.get('Location',
'')` yields), the status and `Location` of the approval POST, and the token
endpoint's answer as a function of the code submitted to it. -/
structure AuthCodeWorld where
  loginStatus : Nat
  authStatus : Nat
  authLocation : String
  approveStatus : Nat
  approveLocation : String
  tokenStatus : String → Nat
  tokenBody : String → TokenJson

/-- Token dictionary the script returns on a successful exchange
(`get-oauth-token-authcode.py`, lines 126-131). -/
structure TokenDict where
  accessToken : Option String
  tokenType : String
  expiresIn : Int
  scope : String
  deriving DecidableEq

/-- Observable outcome of one run of `get_oauth_token_automated`: whether
the approval POST (step 3) was issued, which code (if any) was submitted to
the token exchange, and the returned value (`none` models the Python
`return None` failure paths). -/
structure AuthCodeOutcome where
  approvalRequested : Bool
  exchangedCode : Option String
  result : Option TokenDict
  deriving DecidableEq

/-- Embedding of `get_oauth_token_automated`
(`get-oauth-token-authcode.py`, lines 12-135).  After a successful login,
the authorization request must answer with a redirect; when its `Location`
mentions `authorize` and does not mention `code=`, the approval POST is
issued and, when that POST also redirects, its `Location` replaces the
redirect target.  The code is then the first `code` value of the parsed
query string of the redirect target; it is POSTed to the token endpoint and
a 200 answer is turned into the returned token dictionary. -/
def get_oauth_token_automated (w : AuthCodeWorld) : AuthCodeOutcome :=
  if w.loginStatus ≠ 200 then ⟨false, none, none⟩
  else if redirectCodes.contains w.authStatus then
    let loc₀ := w.authLocation
    let approvalNeeded :=
      containsSub loc₀ "authorize" && !containsSub loc₀ "code="
    let loc :=
      if approvalNeeded then
        if redirectCodes.contains w.approveStatus then w.approveLocation
        else loc₀
      else loc₀
    match lookupFirst (parse_qs (url_query loc)) "code" with
    | some auth_code =>
        if w.tokenStatus auth_code = 200 then
          let td := w.tokenBody auth_code
          ⟨approvalNeeded, some auth_code,
            some ⟨td.accessToken, td.tokenType.getD "Bearer",
                  td.expiresIn.getD 3600, td.scope.getD ""⟩⟩
        else ⟨approvalNeeded, some auth_code, none⟩
    | none => ⟨approvalNeeded, none, none⟩
  else ⟨false, none, none⟩

/-- Header construction of `ERPNextClient._headers` in the demo-data admin
script (`create-demo-data.py`, lines 24-28): Content-Type plus, when both an
API key and secret are configured, the pre-shared
`Authorization: token <key>:<secret>` header. -/
def demo_client_headers (api_key api_secret : String) :
    List (String × String) :=
  let headers := [("Content-Type", "application/json")]
  if api_key ≠ "" ∧ api_secret ≠ "" then
    headers ++ [("Authorization", "token " ++ api_key ++ ":" ++ api_secret)]
  else headers

deriving instance DecidableEq for Except

/-- Configured valves used by the concrete scenarios: the source defaults
for the URLs with the client pair `abc`/`xyz` and caching enabled. -/
def vA : Valves :=
  ⟨"http://frappe-mcp-server:8080/api/v1", "http://localhost:8000",
   "abc", "xyz", 30, true⟩

/-- Token-endpoint JSON of the end-to-end scenario:
`access_token = "tok1"`, `expires_in = 3600`. -/
def tj1 : TokenJson := ⟨some "tok1", none, some 3600, none⟩

/-- Claim C2: with the client pair configured and the token endpoint
answering 200 with `expires_in = 3600` at `t = 0`, the stored expiry is
`0 + 3600 - 60 = 3540`, so the fetch returns `tok1` after one network call,
every later call at `t < 3540` returns the cached token with no network
call, a call at `t = 3600` performs a fresh network fetch, and a response
with `expires_in` absent is given the default lifetime 3600. -/
theorem token_expiry_buffer_scenario (ep₂ : HttpResult) (t n : Int) (tok : String) :
    get_oauth_token vA ⟨none, none⟩ 0 (.ok 200 tj1) =
      ⟨some "tok1", ⟨some "tok1", some 3540⟩, 1⟩
    ∧ (t < 3540 →
        get_oauth_token vA ⟨some "tok1", some 3540⟩ t ep₂ =
          ⟨some "tok1", ⟨some "tok1", some 3540⟩, 0⟩)
    ∧ (get_oauth_token vA ⟨some "tok1", some 3540⟩ 3600 ep₂).netCalls = 1
    ∧ (get_oauth_token vA ⟨none, none⟩ n
        (.ok 200 ⟨some tok, none, none, none⟩)).state.tokenExpiresAt =
        some (n + (3600 - 60)) := by
  refine ⟨by decide, ?_, ?_, ?_⟩
  · intro ht
    simp only [get_oauth_token, cache_lookup]
    rw [if_pos ⟨rfl, by decide, ht⟩]
  · have h1 : cache_lookup vA ⟨some "tok1", some 3540⟩ 3600 = none := by decide
    cases ep₂ with
    | ok status body =>
        simp only [get_oauth_token, h1]
        rw [if_neg (by decide)]
        split <;> rfl
    | exn m =>
        simp only [get_oauth_token, h1]
        rw [if_neg (by decide)]
  · simp only [get_oauth_token, cache_lookup]
    rw [if_neg (by decide)]
    rfl

/-- Witness for C2 at the concrete instant `t = 100`. -/
theorem token_expiry_buffer_scenario_witness :
    (100 : Int) < 3540 ∧
    get_oauth_token vA ⟨some "tok1", some 3540⟩ 100 (.exn "down") =
      ⟨some "tok1", ⟨some "tok1", some 3540⟩, 0⟩ :=
  ⟨by decide, (token_expiry_buffer_scenario (.exn "down") 100 0 "t").2.1 (by decide)⟩

/-- Valves with a client id but an unset (empty, hence Python-falsy) client
secret. -/
def vNoSecret : Valves :=
  ⟨"http://frappe-mcp-server:8080/api/v1", "http://localhost:8000",
   "abc", "", 30, true⟩

/-- Claim C3: on a cache miss with the client id or client secret unset,
`_get_oauth_token` fails fast — the result is the code's failure value
(`none`, its rendering of the configuration error), the state is unchanged,
and zero token-endpoint network calls are made. -/
theorem missing_credentials_no_network (v : Valves) (st : ToolsState)
    (now : Int) (ep : HttpResult)
    (hc : cache_lookup v st now = none)
    (hid : v.oauthClientId = "" ∨ v.oauthClientSecret = "") :
    get_oauth_token v st now ep = ⟨none, st, 0⟩ := by
  simp only [get_oauth_token, hc]
  rw [if_pos hid]

/-- Witness for C3: empty client secret, empty cache, zero network calls. -/
theorem missing_credentials_no_network_witness :
    cache_lookup vNoSecret ⟨none, none⟩ 0 = none ∧
    get_oauth_token vNoSecret ⟨none, none⟩ 0 (.ok 200 tj1) =
      ⟨none, ⟨none, none⟩, 0⟩ :=
  ⟨by decide,
   missing_credentials_no_network vNoSecret ⟨none, none⟩ 0 (.ok 200 tj1)
     (by decide) (Or.inr rfl)⟩

/-- Claim C4: when caching is enabled and the state holds a truthy cached
token whose stored expiry is still in the future, `_get_oauth_token`
returns exactly that cached token, leaves the state unchanged, and makes
no network call, whatever the token endpoint would have answered. -/
theorem cache_hit_no_network (v : Valves) (st : ToolsState) (now : Int)
    (ep : HttpResult) (tok : String) (e : Int)
    (hv : v.cacheToken = true) (hct : st.cachedToken = some tok)
    (hne : tok ≠ "") (hexp : st.tokenExpiresAt = some e) (hlt : now < e) :
    get_oauth_token v st now ep = ⟨some tok, st, 0⟩ := by
  simp only [get_oauth_token, cache_lookup, hct, hexp]
  rw [if_pos ⟨hv, hne, hlt⟩]

/-- Witness for C4: a valid cached token short-circuits the fetch. -/
theorem cache_hit_no_network_witness :
    (7 : Int) < 3540 ∧
    get_oauth_token vA ⟨some "tok1", some 3540⟩ 7 (.ok 500 tj1) =
      ⟨some "tok1", ⟨some "tok1", some 3540⟩, 0⟩ :=
  ⟨by decide,
   cache_hit_no_network vA ⟨some "tok1", some 3540⟩ 7 (.ok 500 tj1) "tok1" 3540
     rfl rfl (by decide) rfl (by decide)⟩

/-- Claim C5: the state stored by a successful fetch at time `t₀` with
lifetime `e` (the record's true expiry being `t₀ + e` and the safety buffer
60 seconds) carries the stored expiry `t₀ + e - 60`, and the cache check
returns a token at time `now` only when `now < t₀ + e - 60`; once
`t₀ + e - 60 ≤ now` the check reports absence, never a stale record. -/
theorem cache_never_returns_expired (v : Valves) (st₀ : ToolsState)
    (t₀ : Int) (body : TokenJson) (now : Int)
    (hc : cache_lookup v st₀ t₀ = none)
    (hid : v.oauthClientId ≠ "") (hsec : v.oauthClientSecret ≠ "") :
    ((get_oauth_token v st₀ t₀ (.ok 200 body)).state.tokenExpiresAt =
        some (t₀ + body.expiresIn.getD 3600 - 60))
    ∧ (∀ x, cache_lookup v (get_oauth_token v st₀ t₀ (.ok 200 body)).state now = some x →
        now < t₀ + body.expiresIn.getD 3600 - 60)
    ∧ (t₀ + body.expiresIn.getD 3600 - 60 ≤ now →
        cache_lookup v (get_oauth_token v st₀ t₀ (.ok 200 body)).state now = none) := by
  have hst : (get_oauth_token v st₀ t₀ (.ok 200 body)).state =
      ⟨body.accessToken, some (t₀ + (body.expiresIn.getD 3600 - 60))⟩ := by
    simp only [get_oauth_token, hc]
    rw [if_neg (by simp [hid, hsec])]
    rfl
  rw [hst]
  refine ⟨by simp; omega, ?_, ?_⟩
  · intro x hx
    cases hat : body.accessToken with
    | none => simp [cache_lookup, hat] at hx
    | some tok =>
        simp only [cache_lookup, hat] at hx
        split at hx
        · omega
        · exact absurd hx (by simp)
  · intro hle
    cases hat : body.accessToken with
    | none => simp [cache_lookup, hat]
    | some tok =>
        simp only [cache_lookup, hat]
        rw [if_neg (by intro h; omega)]

/-- Witness for C5: the record fetched at `t = 0` with lifetime 3600 is
reported absent at `t = 4000`. -/
theorem cache_never_returns_expired_witness :
    (0 : Int) + 3600 - 60 ≤ 4000 ∧
    cache_lookup vA (get_oauth_token vA ⟨none, none⟩ 0 (.ok 200 tj1)).state 4000 = none :=
  ⟨by decide,
   (cache_never_returns_expired vA ⟨none, none⟩ 0 tj1 4000
      (by decide) (by decide) (by decide)).2.2 (by decide)⟩

/-- Resource server of the C1 scenario: it rejects every request with 401,
whatever token it carries. -/
def c1_resource : Request → Response := fun _ => ⟨401, "Unauthorized"⟩

/-- Dispatch of the C1 scenario: configured client pair, empty cache, token
endpoint issuing `tok1`, resource server always answering 401. -/
def c1_dispatch : Except String DispatchResult :=
  make_authenticated_request vA ⟨none, none⟩ 0 (.ok 200 tj1) c1_resource
    "POST" "/chat" (some "message payload")
    (some ⟨some "a@b.com", some "a@b.com", none⟩)

/-- Successful value of the C1 dispatch (the run does succeed: POST is a
supported method). -/
def c1_run : DispatchResult :=
  match c1_dispatch with
  | .ok r => r
  | .error _ => ⟨⟨0, ""⟩, ⟨none, none⟩, 0, []⟩

/-- Claim C1 counterexample: on a run whose response is 401 the dispatcher
issues exactly one resource request — not the two a single retry would
produce — makes exactly one token fetch — not the two a fresh-token
re-fetch would produce — and leaves `tok1` cached instead of invalidating
the cache entry.  `_make_authenticated_request` has no 401 handling at all,
so the claimed invalidate/refresh/retry behaviour does not exist. -/
theorem dispatch_401_counterexample :
    c1_run.response.statusCode = 401 ∧
    c1_run.issued.length = 1 ∧ ¬ c1_run.issued.length = 2 ∧
    c1_run.tokenNetCalls = 1 ∧ ¬ c1_run.tokenNetCalls = 2 ∧
    c1_run.state.cachedToken = some "tok1" := by decide

/-- Claim C1 as amended: for every dispatched request whose response status
is 401, the dispatcher performs no cache invalidation, no fresh token
fetch, and no retry — exactly one outbound request is issued, the token
state and fetch count are exactly those of the single pre-request token
acquisition, and the 401 response is surfaced to the caller unmodified. -/
theorem dispatch_401_no_retry (v : Valves) (st : ToolsState) (now : Int)
    (ep : HttpResult) (resource : Request → Response)
    (method endpoint : String) (jd : Option String) (uc : Option UserContext)
    (r : DispatchResult)
    (h : make_authenticated_request v st now ep resource method endpoint jd uc = .ok r)
    (h401 : r.response.statusCode = 401) :
    r.issued.length = 1 ∧
    r.state = (get_oauth_token v st now ep).state ∧
    r.tokenNetCalls = (get_oauth_token v st now ep).netCalls := by
  unfold make_authenticated_request at h
  split at h
  · cases h
    exact ⟨rfl, rfl, rfl⟩
  · split at h
    · cases h
      exact ⟨rfl, rfl, rfl⟩
    · cases h

/-- Witness for C1's amended theorem at the concrete 401 scenario. -/
theorem dispatch_401_no_retry_witness :
    c1_run.issued.length = 1 ∧
    c1_run.state = (get_oauth_token vA ⟨none, none⟩ 0 (.ok 200 tj1)).state ∧
    c1_run.tokenNetCalls = (get_oauth_token vA ⟨none, none⟩ 0 (.ok 200 tj1)).netCalls :=
  dispatch_401_no_retry vA ⟨none, none⟩ 0 (.ok 200 tj1) c1_resource
    "POST" "/chat" (some "message payload")
    (some ⟨some "a@b.com", some "a@b.com", none⟩) c1_run (by decide) (by decide)

/-- Claim C6: after a successful login, when the authorization request
answers with a redirect, the script exchanges the first `code` value of the
redirect target's parsed query string: when the target already mentions
`code=` the approval POST is skipped and that code `X` goes to the token
exchange; when the target is the authorize endpoint without a code, the
approval POST is issued and the code `Y` of its redirect goes to the token
exchange. -/
theorem authcode_flow_code_selection (w : AuthCodeWorld) (X Y : String)
    (hl : w.loginStatus = 200)
    (hr : redirectCodes.contains w.authStatus = true) :
    (containsSub w.authLocation "code=" = true →
      lookupFirst (parse_qs (url_query w.authLocation)) "code" = some X →
      (get_oauth_token_automated w).approvalRequested = false ∧
      (get_oauth_token_automated w).exchangedCode = some X)
    ∧ (containsSub w.authLocation "authorize" = true →
       containsSub w.authLocation "code=" = false →
       redirectCodes.contains w.approveStatus = true →
       lookupFirst (parse_qs (url_query w.approveLocation)) "code" = some Y →
       (get_oauth_token_automated w).approvalRequested = true ∧
       (get_oauth_token_automated w).exchangedCode = some Y) := by
  constructor
  · intro hcode hX
    simp only [get_oauth_token_automated, hl, hr, hcode]
    simp [hX]
    split <;> exact ⟨rfl, rfl⟩
  · intro hauth hnocode happ hY
    simp only [get_oauth_token_automated, hl, hr, hauth, hnocode, happ]
    simp [hY]
    split <;> exact ⟨rfl, rfl⟩

/-- Mocked world where the authorization request's redirect already carries
the code `ABC123`. -/
def wCodeDirect : AuthCodeWorld :=
  ⟨200, 302, "http://localhost?code=ABC123", 0, "",
   fun _ => 200, fun _ => ⟨some "at1", none, none, none⟩⟩

/-- Mocked world where the authorization request redirects back to the
authorize endpoint and only the approval step's redirect carries the code
`YY99`. -/
def wApproval : AuthCodeWorld :=
  ⟨200, 302,
   "http://localhost:8000/api/method/frappe.integrations.oauth2.authorize?client_id=abc",
   302, "http://localhost?code=YY99",
   fun _ => 200, fun _ => ⟨some "at2", none, none, none⟩⟩

/-- Witness for C6 at the two mocked worlds: the direct-code world skips the
approval step and exchanges `ABC123`; the approval world issues the
approval step and exchanges `YY99`. -/
theorem authcode_flow_code_selection_witness :
    ((get_oauth_token_automated wCodeDirect).approvalRequested = false ∧
     (get_oauth_token_automated wCodeDirect).exchangedCode = some "ABC123") ∧
    ((get_oauth_token_automated wApproval).approvalRequested = true ∧
     (get_oauth_token_automated wApproval).exchangedCode = some "YY99") :=
  ⟨(authcode_flow_code_selection wCodeDirect "ABC123" "" (by decide) (by decide)).1
     (by decide) (by decide),
   (authcode_flow_code_selection wApproval "" "YY99" (by decide) (by decide)).2
     (by decide) (by decide) (by decide) (by decide)⟩

/-- Claim C7: a user-context header is attached only for a field actually
present — when a field is absent its header is absent whatever the token;
with a token and a context holding only an email, the headers are exactly
Content-Type, the Bearer Authorization header and `X-MCP-User-Email` with
that email value; with no user context at all, only Content-Type and
Authorization can occur. -/
theorem user_context_header_policy (token : Option String) (u : UserContext)
    (val : String) :
    (u.userId = none → ("X-MCP-User-ID", val) ∉ build_headers token (some u))
    ∧ (u.userEmail = none → ("X-MCP-User-Email", val) ∉ build_headers token (some u))
    ∧ (u.userName = none → ("X-MCP-User-Name", val) ∉ build_headers token (some u))
    ∧ (∀ tok e, tok ≠ "" →
        build_headers (some tok) (some ⟨none, some e, none⟩) =
          [("Content-Type", "application/json"),
           ("Authorization", "Bearer " ++ tok), ("X-MCP-User-Email", e)])
    ∧ (∀ nm v2, (nm, v2) ∈ build_headers token none →
        nm = "Content-Type" ∨ nm = "Authorization") := by
  obtain ⟨ui, ue, un⟩ := u
  refine ⟨?_, ?_, ?_, ?_, ?_⟩
  · rintro rfl
    cases token with
    | none => simp [build_headers]
    | some tok =>
        by_cases htok : tok = "" <;>
          cases ue <;> cases un <;>
            simp [build_headers, uc_truthy, htok]
  · rintro rfl
    cases token with
    | none => simp [build_headers]
    | some tok =>
        by_cases htok : tok = "" <;>
          cases ui <;> cases un <;>
            simp [build_headers, uc_truthy, htok]
  · rintro rfl
    cases token with
    | none => simp [build_headers]
    | some tok =>
        by_cases htok : tok = "" <;>
          cases ui <;> cases ue <;>
            simp [build_headers, uc_truthy, htok]
  · intro tok e htok
    simp [build_headers, uc_truthy, htok]
  · intro nm v2 h
    cases token with
    | none =>
        simp [build_headers] at h
        tauto
    | some tok =>
        by_cases htok : tok = "" <;>
          simp [build_headers, uc_truthy, htok] at h <;>
          tauto

/-- Witness for C7: a context holding only `a@b.com` yields exactly the
email header next to Content-Type and Authorization, and no ID header. -/
theorem user_context_header_policy_witness :
    (("X-MCP-User-ID", "x") ∉
       build_headers (some "tok1") (some ⟨none, some "a@b.com", none⟩)) ∧
    build_headers (some "tok1") (some ⟨none, some "a@b.com", none⟩) =
      [("Content-Type", "application/json"), ("Authorization", "Bearer tok1"),
       ("X-MCP-User-Email", "a@b.com")] :=
  ⟨(user_context_header_policy (some "tok1") ⟨none, some "a@b.com", none⟩ "x").1 rfl,
   (user_context_header_policy (some "tok1") ⟨none, some "a@b.com", none⟩ "x").2.2.2.1
     "tok1" "a@b.com" (by decide)⟩

/-- Valves with no OAuth2 client configured (both id and secret empty). -/
def vUnconfigured : Valves :=
  ⟨"http://frappe-mcp-server:8080/api/v1", "http://localhost:8000",
   "", "", 30, true⟩

/-- Dispatch of the C8 scenario: no OAuth2 client configured, empty cache,
plain GET health check. -/
def c8_dispatch : Except String DispatchResult :=
  make_authenticated_request vUnconfigured ⟨none, none⟩ 0 (.ok 200 tj1)
    (fun _ => ⟨200, "ok"⟩) "GET" "/health" none none

/-- Successful value of the C8 dispatch. -/
def c8_run : DispatchResult :=
  match c8_dispatch with
  | .ok r => r
  | .error _ => ⟨⟨0, ""⟩, ⟨none, none⟩, 0, []⟩

/-- Claim C8 counterexample: with no OAuth2 client configured the
dispatcher's outbound request carries no `Authorization` header at all —
in particular no pre-shared `token <key>:<secret>` header (its `Valves`
holds no API key/secret it could use) — while it does skip the token
fetch. -/
theorem fallback_header_counterexample :
    c8_run.issued =
      [⟨"GET", "http://frappe-mcp-server:8080/api/v1/health",
        [("Content-Type", "application/json")], none⟩] ∧
    ((c8_run.issued.headD ⟨"", "", [], none⟩).headers.any
        (fun p => p.1 == "Authorization")) = false ∧
    c8_run.tokenNetCalls = 0 := by decide

/-- Claim C8 as amended: when no OAuth2 client id/secret is configured (and
nothing is cached), the dispatcher performs no token fetch and attaches no
Authorization header at all — the single outbound request carries only
Content-Type; the pre-shared `token <key>:<secret>` Authorization scheme
exists only in the admin helper scripts' ERPNext client, not in the
dispatcher. -/
theorem no_oauth_no_auth_header (v : Valves) (st : ToolsState) (now : Int)
    (ep : HttpResult) (resource : Request → Response) (endpoint : String)
    (jd : Option String) (uc : Option UserContext) (r : DispatchResult)
    (k s : String)
    (hid : v.oauthClientId = "") (hcache : st.cachedToken = none)
    (h : make_authenticated_request v st now ep resource "GET" endpoint jd uc = .ok r) :
    (r.issued = [⟨"GET", v.mcpApiBase ++ endpoint,
        [("Content-Type", "application/json")], none⟩] ∧
      r.tokenNetCalls = 0)
    ∧ (k ≠ "" → s ≠ "" →
        demo_client_headers k s =
          [("Content-Type", "application/json"),
           ("Authorization", "token " ++ k ++ ":" ++ s)]) := by
  obtain ⟨ct, te⟩ := st
  simp only [ToolsState.mk.injEq] at hcache
  subst hcache
  have hcl : cache_lookup v ⟨none, te⟩ now = none := rfl
  have htok : get_oauth_token v ⟨none, te⟩ now ep = ⟨none, ⟨none, te⟩, 0⟩ := by
    simp only [get_oauth_token, hcl]
    rw [if_pos (Or.inl hid)]
  simp only [make_authenticated_request, htok, build_headers] at h
  rw [if_pos (by decide)] at h
  cases h
  exact ⟨⟨rfl, rfl⟩, fun hk hs => by simp [demo_client_headers, hk, hs]⟩

/-- Witness for C8's amended theorem at the concrete unconfigured scenario,
next to the admin-script header shape at `k1`/`s1`. -/
theorem no_oauth_no_auth_header_witness :
    (c8_run.issued = [⟨"GET", "http://frappe-mcp-server:8080/api/v1/health",
        [("Content-Type", "application/json")], none⟩] ∧
      c8_run.tokenNetCalls = 0)
    ∧ demo_client_headers "k1" "s1" =
        [("Content-Type", "application/json"),
         ("Authorization", "token k1:s1")] := by
  have h := no_oauth_no_auth_header vUnconfigured ⟨none, none⟩ 0 (.ok 200 tj1)
    (fun _ => ⟨200, "ok"⟩) "/health" none none c8_run "k1" "s1"
    rfl rfl (by decide)
  exact ⟨h.1, h.2 (by decide) (by decide)⟩

/-- Claim C9 counterexample: a 500 answer with one body, a 403 answer with
another body, and a raised transport exception all produce the identical
untyped absent result (`none`, state unchanged) — the returned value
carries neither the status, nor the body, nor the cause, so no
`AuthenticationError{status, body}` or `NetworkError{cause}` value crosses
the boundary. -/
theorem untyped_token_error_counterexample :
    get_oauth_token vA ⟨none, none⟩ 0
        (.ok 500 ⟨none, none, none, some "err one"⟩) = ⟨none, ⟨none, none⟩, 1⟩
    ∧ get_oauth_token vA ⟨none, none⟩ 0
        (.ok 403 ⟨none, none, none, some "err two"⟩) = ⟨none, ⟨none, none⟩, 1⟩
    ∧ get_oauth_token vA ⟨none, none⟩ 0
        (.exn "connection refused") = ⟨none, ⟨none, none⟩, 1⟩ := by decide

/-- Claim C9 as amended: on a fetch attempt (cache miss, credentials
configured), every non-200 token response and every transport failure
yields the same untyped absent token `none` with the state unchanged — the
status or exception is only printed, and no typed error value is returned
across the component boundary. -/
theorem token_failure_returns_none (v : Valves) (st : ToolsState) (now : Int)
    (s : Nat) (body : TokenJson) (msg : String)
    (hc : cache_lookup v st now = none)
    (hid : v.oauthClientId ≠ "") (hsec : v.oauthClientSecret ≠ "")
    (hs : s ≠ 200) :
    get_oauth_token v st now (.ok s body) = ⟨none, st, 1⟩
    ∧ get_oauth_token v st now (.exn msg) = ⟨none, st, 1⟩ := by
  refine ⟨?_, ?_⟩
  · simp only [get_oauth_token, hc]
    rw [if_neg (by simp [hid, hsec])]
    simp [hs]
  · simp only [get_oauth_token, hc]
    rw [if_neg (by simp [hid, hsec])]

/-- Witness for C9's amended theorem at status 500 and a timeout message. -/
theorem token_failure_returns_none_witness :
    (500 : Nat) ≠ 200 ∧
    get_oauth_token vA ⟨none, none⟩ 0 (.ok 500 tj1) = ⟨none, ⟨none, none⟩, 1⟩ ∧
    get_oauth_token vA ⟨none, none⟩ 0 (.exn "timeout") = ⟨none, ⟨none, none⟩, 1⟩ := by
  have h := token_failure_returns_none vA ⟨none, none⟩ 0 500 tj1 "timeout"
    (by decide) (by decide) (by decide) (by decide)
  exact ⟨by decide, h.1, h.2⟩

/-- Claim C10: whenever the token acquisition yields no token — missing
configuration, non-200 token response or transport failure alike — the
dispatcher still issues its one outbound request, and that request carries
only the Content-Type header: no Authorization header and no user-context
header, even when a user context was supplied. -/
theorem tokenless_dispatch (v : Valves) (st : ToolsState) (now : Int)
    (ep : HttpResult) (resource : Request → Response)
    (method endpoint : String) (jd : Option String) (uc : Option UserContext)
    (htok : (get_oauth_token v st now ep).token = none)
    (hm : py_upper method = "GET" ∨ py_upper method = "POST") :
    ∃ r : DispatchResult,
      make_authenticated_request v st now ep resource method endpoint jd uc = .ok r ∧
      r.issued.length = 1 ∧
      ∀ req ∈ r.issued, req.headers = [("Content-Type", "application/json")] := by
  have hh : build_headers (get_oauth_token v st now ep).token uc =
      [("Content-Type", "application/json")] := by
    rw [htok]
    rfl
  simp only [make_authenticated_request, hh]
  rcases hm with hm | hm <;> rw [hm]
  · rw [if_pos rfl]
    exact ⟨_, rfl, rfl, by simp⟩
  · rw [if_neg (by decide), if_pos rfl]
    exact ⟨_, rfl, rfl, by simp⟩

/-- Valves of the C10 witness: no OAuth2 client configured, so the token
acquisition yields no token. -/
def v10 : Valves :=
  ⟨"http://frappe-mcp-server:8080/api/v1", "http://localhost:8000",
   "", "", 30, true⟩

/-- Witness for C10: a lower-case `get` dispatch with a user context but no
obtainable token still goes out, bearing only the Content-Type header. -/
theorem tokenless_dispatch_witness :
    (get_oauth_token v10 ⟨none, none⟩ 0 (.ok 200 tj1)).token = none ∧
    ∃ r : DispatchResult,
      make_authenticated_request v10 ⟨none, none⟩ 0 (.ok 200 tj1)
          (fun _ => ⟨200, "ok"⟩) "get" "/tools" none
          (some ⟨none, some "a@b.com", none⟩) = .ok r ∧
      r.issued.length = 1 ∧
      ∀ req ∈ r.issued, req.headers = [("Content-Type", "application/json")] :=
  ⟨by decide,
   tokenless_dispatch v10 ⟨none, none⟩ 0 (.ok 200 tj1) (fun _ => ⟨200, "ok"⟩)
     "get" "/tools" none (some ⟨none, some "a@b.com", none⟩)
     (by decide) (Or.inl (by decide))⟩
